import Mathlib

/-!
Verification development for the `jupyterlab-a11y-fix` notebook accessibility
plugin (`src/index.ts`).  The file shallowly embeds the plugin's pipeline:

* `analyzeCellsAccessibility` — the issue scanner over notebook cells;
* `formatPrompt` — the prompt formatter;
* `getFixSuggestions` — the Ollama backend adapter, including its handling of
  transport failures and of the fenced-JSON payload (the JavaScript builtin
  `JSON.parse` and JS property/truthiness semantics are modelled explicitly);
* `CellIssueWidget.applySuggestion` — applying a suggestion back into a cell
  and re-validating it.

The accessibility engine (`axe.run`) and the HTTP transport are external
collaborators: they enter the embedding as parameters (`AxeRun`,
`NetOutcome`).
-/

namespace A11yFix

/-! ## JavaScript value model

`JSON.parse` produces arbitrary JavaScript values; the adapter then accesses
properties on them and applies `||`-defaulting.  `JSVal` models the values
JSON can decode to. -/

inductive JSVal where
  | jnull
  | jbool (b : Bool)
  | jnum (q : Rat)
  | jstr (s : String)
  | jarr (elems : List JSVal)
  | jobj (fields : List (String × JSVal))

/-- JS truthiness of a JSON-decoded value (`NaN` cannot arise from
`JSON.parse`, `-0` equals `0` in `Rat`). -/
def jsTruthy : JSVal → Bool
  | .jnull => false
  | .jbool b => b
  | .jnum q => !(q == 0)
  | .jstr s => !(s == "")
  | .jarr _ => true
  | .jobj _ => true

/-- `x || ''` applied to a possibly-undefined (`none`) property value. -/
def jsOrEmptyString : Option JSVal → JSVal
  | none => .jstr ""
  | some v => if jsTruthy v then v else .jstr ""

/-- JS object-literal lookup keeps the *last* binding of a duplicated key,
matching `JSON.parse`. -/
def lookupField (fields : List (String × JSVal)) (k : String) : Option JSVal :=
  match fields with
  | [] => none
  | (k', v) :: rest =>
    match lookupField rest k with
    | some v' => some v'
    | none => if k' == k then some v else none

/-- Property access `v.k`: a `TypeError` (modelled as `Except.error`) on
`null`, `undefined` (`none`) on non-object values, the field otherwise. -/
def jsGetProp : JSVal → String → Except Unit (Option JSVal)
  | .jnull, _ => .error ()
  | .jobj fields, k => .ok (lookupField fields k)
  | _, _ => .ok none

/-- Is the value a JS string? -/
def jsIsString : JSVal → Bool
  | .jstr _ => true
  | _ => false

/-! ## A model of the JavaScript builtin `JSON.parse`

External to the repository; modelled over the full JSON grammar (strings with
standard escapes, numbers, `true`/`false`/`null`, arrays, objects).  Recursion
is fuelled so that every function is structurally recursive and kernel
reducible. -/

def lbrace : Char := Char.ofNat 123

def rbrace : Char := Char.ofNat 125

def jsonWs (c : Char) : Bool :=
  c == ' ' || c == '\t' || c == '\n' || c == '\r'

def skipWs : List Char → List Char
  | [] => []
  | c :: cs => if jsonWs c then skipWs cs else c :: cs

def hexVal (c : Char) : Option Nat :=
  if '0' ≤ c ∧ c ≤ '9' then some (c.toNat - '0'.toNat)
  else if 'a' ≤ c ∧ c ≤ 'f' then some (c.toNat - 'a'.toNat + 10)
  else if 'A' ≤ c ∧ c ≤ 'F' then some (c.toNat - 'A'.toNat + 10)
  else none

/-- Body of a JSON string after the opening quote: the decoded characters and
the input after the closing quote. -/
def parseStringBody : Nat → List Char → Option (List Char × List Char)
  | 0, _ => none
  | _, [] => none
  | fuel + 1, c :: cs =>
    if c == '"' then some ([], cs)
    else if c == '\\' then
      match cs with
      | [] => none
      | e :: cs2 =>
        let esc : Option (Char × List Char) :=
          if e == '"' then some ('"', cs2)
          else if e == '\\' then some ('\\', cs2)
          else if e == '/' then some ('/', cs2)
          else if e == 'b' then some (Char.ofNat 8, cs2)
          else if e == 'f' then some (Char.ofNat 12, cs2)
          else if e == 'n' then some ('\n', cs2)
          else if e == 'r' then some ('\r', cs2)
          else if e == 't' then some ('\t', cs2)
          else if e == 'u' then
            match cs2 with
            | h1 :: h2 :: h3 :: h4 :: cs3 =>
              match hexVal h1, hexVal h2, hexVal h3, hexVal h4 with
              | some a, some b, some c3, some d =>
                some (Char.ofNat (((a * 16 + b) * 16 + c3) * 16 + d), cs3)
              | _, _, _, _ => none
            | _ => none
          else none
        match esc with
        | some (ch, rest) =>
          match parseStringBody fuel rest with
          | some (s, r) => some (ch :: s, r)
          | none => none
        | none => none
    else if c.toNat < 32 then none
    else
      match parseStringBody fuel cs with
      | some (s, r) => some (c :: s, r)
      | none => none

def takeDigitsAux : List Char → Nat → Nat → Nat × Nat × List Char
  | [], v, n => (v, n, [])
  | c :: cs, v, n =>
    if c.isDigit then takeDigitsAux cs (v * 10 + (c.toNat - '0'.toNat)) (n + 1)
    else (v, n, c :: cs)

def parseFracPart : List Char → Option (Nat × Nat × List Char)
  | [] => some (0, 0, [])
  | c :: r =>
    if c == '.' then
      match r with
      | d :: _ => if d.isDigit then some (takeDigitsAux r 0 0) else none
      | [] => none
    else some (0, 0, c :: r)

def parseExpPart : List Char → Option (Int × List Char)
  | [] => some (0, [])
  | c :: r =>
    if c == 'e' || c == 'E' then
      let signed : Int × List Char :=
        match r with
        | s :: r' => if s == '+' then (1, r') else if s == '-' then (-1, r') else (1, r)
        | [] => (1, [])
      match signed.2 with
      | d :: _ =>
        if d.isDigit then
          let (ev, _, r2) := takeDigitsAux signed.2 0 0
          some (signed.1 * (ev : Int), r2)
        else none
      | [] => none
    else some (0, c :: r)

/-- A JSON number token (sign, integer part with the leading-zero rule,
optional fraction and exponent) as a rational. -/
def parseNumber (cs : List Char) : Option (Rat × List Char) :=
  let signed : Bool × List Char :=
    match cs with
    | c :: r => if c == '-' then (true, r) else (false, cs)
    | [] => (false, [])
  match signed.2 with
  | [] => none
  | c :: _ =>
    if !c.isDigit then none
    else
      let intRead : Nat × List Char :=
        if c == '0' then (0, signed.2.tail)
        else
          let (v, _, r) := takeDigitsAux signed.2 0 0
          (v, r)
      match parseFracPart intRead.2 with
      | none => none
      | some (fv, fn, cs3) =>
        match parseExpPart cs3 with
        | none => none
        | some (ev, cs4) =>
          let mag : Rat := ((intRead.1 : Rat) + (fv : Rat) / ((10 : Rat) ^ fn)) * ((10 : Rat) ^ ev)
          some (if signed.1 then -mag else mag, cs4)

/-- Parser mode: a full value, the members of an object (after `\x7b`), or the
elements of an array (after `[`). -/
inductive PMode where
  | value
  | members
  | elements

/-- The JSON grammar, fuelled.  `members` mode returns a `jobj`, `elements`
mode a `jarr`. -/
def parseF : Nat → PMode → List Char → Option (JSVal × List Char)
  | 0, _, _ => none
  | fuel + 1, .value, cs =>
    match skipWs cs with
    | [] => none
    | c :: rest =>
      if c == '"' then
        match parseStringBody (rest.length + 1) rest with
        | some (s, r) => some (.jstr (String.mk s), r)
        | none => none
      else if c == lbrace then
        match skipWs rest with
        | c2 :: r2 => if c2 == rbrace then some (.jobj [], r2) else parseF fuel .members rest
        | [] => none
      else if c == '[' then
        match skipWs rest with
        | c2 :: r2 => if c2 == ']' then some (.jarr [], r2) else parseF fuel .elements rest
        | [] => none
      else if c == 't' then
        if ['r', 'u', 'e'].isPrefixOf rest then some (.jbool true, rest.drop 3) else none
      else if c == 'f' then
        if ['a', 'l', 's', 'e'].isPrefixOf rest then some (.jbool false, rest.drop 4) else none
      else if c == 'n' then
        if ['u', 'l', 'l'].isPrefixOf rest then some (.jnull, rest.drop 3) else none
      else
        match parseNumber (c :: rest) with
        | some (q, r) => some (.jnum q, r)
        | none => none
  | fuel + 1, .members, cs =>
    match skipWs cs with
    | [] => none
    | c :: rest =>
      if c == '"' then
        match parseStringBody (rest.length + 1) rest with
        | some (k, r1) =>
          match skipWs r1 with
          | ':' :: r2 =>
            match parseF fuel .value r2 with
            | some (v, r3) =>
              (match skipWs r3 with
              | ',' :: r4 =>
                match parseF fuel .members r4 with
                | some (.jobj fields, r5) => some (.jobj ((String.mk k, v) :: fields), r5)
                | _ => none
              | c5 :: r4 => if c5 == rbrace then some (.jobj [(String.mk k, v)], r4) else none
              | [] => none)
            | none => none
          | _ => none
        | none => none
      else none
  | fuel + 1, .elements, cs =>
    match parseF fuel .value cs with
    | some (v, r1) =>
      (match skipWs r1 with
      | ',' :: r2 =>
        match parseF fuel .elements r2 with
        | some (.jarr elems, r3) => some (.jarr (v :: elems), r3)
        | _ => none
      | ']' :: r2 => some (.jarr [v], r2)
      | _ => none)
    | none => none

/-- Model of `JSON.parse`: `none` where the builtin throws a `SyntaxError`. -/
def jsonParse (s : String) : Option JSVal :=
  match parseF (s.length * 4 + 16) .value s.data with
  | some (v, rest) => if (skipWs rest).isEmpty then some v else none
  | none => none

/-! ## Suggestion backend adapter (`getFixSuggestions`)

`src/index.ts` lines 87–127.  The transport (`fetch`) is external: its outcome
enters as a `NetOutcome`.  The adapter's control flow is two nested
`try`/`catch` blocks:

* outer `catch` (fetch rejection, `!response.ok` throw, `JSON.parse` of the
  body text throwing) → `['Error analyzing accessibility issues', '']`;
* inner `catch` (a `TypeError` from `responseObj.response.replace` when the
  `response` field is missing or not a string, `null.property` access, or
  `JSON.parse` of the stripped payload throwing) →
  `['Invalid response format', '']`.

The returned pair is `[suggestion, explanation]`: the widget stores the first
component as `this.suggestion` and shows it in the suggestion area. -/

/-- Outcome of `fetch(OLLAMA_API, ...)`: rejection, or a response with a
status and a body text. -/
inductive NetOutcome where
  | netError
  | gotResponse (status : Nat) (bodyText : String)

/-- `Response.ok`: status in the inclusive range 200–299. -/
def respOk (status : Nat) : Bool :=
  200 ≤ status && status ≤ 299

/-- Characters the JavaScript builtin `String.prototype.trim` strips (the
ASCII ones; the plugin's strings stay in ASCII). -/
def jsWhitespace (c : Char) : Bool :=
  c == ' ' || c == '\t' || c == '\n' || c == '\r' || c == Char.ofNat 11 || c == Char.ofNat 12

/-- Model of the JavaScript builtin `String.prototype.trim`. -/
def jsTrim (s : String) : String :=
  String.mk (((s.data.dropWhile jsWhitespace).reverse.dropWhile jsWhitespace).reverse)

/-- First-occurrence replacement by the empty string, the effect of
`String.replace(/pat/, '')` for a literal, non-global pattern. -/
def replaceFirstL (pat : List Char) : List Char → List Char
  | [] => []
  | c :: cs =>
    if pat.isPrefixOf (c :: cs) then (c :: cs).drop pat.length
    else c :: replaceFirstL pat cs

/-- `.replace(/```json\n/, '').replace(/\n```/, '').trim()` applied to the
`response` field. -/
def stripFences (s : String) : String :=
  jsTrim (String.mk (replaceFirstL "\n```".data (replaceFirstL "```json\n".data s.data)))

/-- The inner `try` block: strip the fences from `responseObj.response`,
re-parse, extract the two fields with `|| ''`.  `Except.error` stands for a
caught exception (handled as `'Invalid response format'`). -/
def parseSuggestionPayload (responseObj : JSVal) : Except Unit (JSVal × JSVal) := do
  let respField ← jsGetProp responseObj "response"
  match respField with
  | some (.jstr s) =>
    match jsonParse (stripFences s) with
    | none => .error ()
    | some result => do
      let f1 ← jsGetProp result "exampleCellContent"
      let f2 ← jsGetProp result "explanation"
      return (jsOrEmptyString f1, jsOrEmptyString f2)
  | _ => .error ()

/-- `getFixSuggestions` (lines 87–127): total over every transport outcome;
returns the `[suggestion, explanation]` pair. -/
def getFixSuggestions (net : NetOutcome) : JSVal × JSVal :=
  match net with
  | .netError => (.jstr "Error analyzing accessibility issues", .jstr "")
  | .gotResponse status body =>
    if !respOk status then (.jstr "Error analyzing accessibility issues", .jstr "")
    else
      match jsonParse body with
      | none => (.jstr "Error analyzing accessibility issues", .jstr "")
      | some responseObj =>
        match parseSuggestionPayload responseObj with
        | .error _ => (.jstr "Invalid response format", .jstr "")
        | .ok pair => pair

/-! ## Data model: violations, cells, issues -/

/-- One `axe.Result` as the plugin consumes it. -/
structure Violation where
  id : String
  impact : String
  description : String
  help : String
  helpUrl : String
deriving DecidableEq

/-- `axe.RunOptions` as the plugin builds them: the `runOnly` guideline tags
and the per-rule enable map. -/
structure AxeRunOptions where
  runOnly : List String
  rules : List (String × Bool)
deriving DecidableEq

/-- The scan's configuration (`axeConfig`, lines 24–27). -/
def axeConfig : AxeRunOptions :=
  { runOnly := ["wcag2a", "wcag2aa", "wcag21a", "wcag21aa"]
    rules := [("button-name", false)] }

/-- The configuration literal inside `applySuggestion` (lines 255–257). -/
def applyAxeOptions : AxeRunOptions :=
  { runOnly := ["wcag2a", "wcag2aa", "wcag21a", "wcag21aa"]
    rules := [("button-name", false)] }

/-- The accessibility oracle `axe.run`: given the scratch container's HTML and
options, it resolves with the violation list or rejects with an error of type
`E`. -/
def AxeRun (E : Type) : Type :=
  String → AxeRunOptions → Except E (List Violation)

/-- `cell.model`: the shared model's `type` and editable source. -/
structure CellModel where
  type : String
  source : String
deriving DecidableEq

/-- One widget of `panel.content.widgets`: its optional model and the rendered
DOM — `querySelector('.jp-MarkdownOutput')`, `querySelector('.jp-OutputArea')`
(each `none` when the selector finds nothing) and `cell.node.innerHTML`. -/
structure NotebookCell where
  model : Option CellModel
  markdownOutput : Option String
  outputArea : Option String
  nodeInnerHTML : String
deriving DecidableEq

/-- `CellAccessibilityIssue` (lines 8–13). -/
structure CellAccessibilityIssue where
  cellIndex : Nat
  cellType : String
  axeResults : List Violation
  contentRaw : String
deriving DecidableEq

/-! ## Issue scanner (`analyzeCellsAccessibility`, lines 18–66) -/

/-- The rendered-output container chosen for a cell type: `.jp-MarkdownOutput`
for `'markdown'`, `.jp-OutputArea` for `'code'`, `undefined` otherwise. -/
def cellOutput (cellType : String) (cell : NotebookCell) : Option String :=
  if cellType == "markdown" then cell.markdownOutput
  else if cellType == "code" then cell.outputArea
  else none

/-- Lifecycle events of the scratch rendering container (`tempDiv`). -/
inductive ScratchEvent where
  | create
  | remove
deriving DecidableEq

/-- What one scan run produces: the issue list (or the propagated oracle
error), the `console.warn` indices, and the scratch container's events. -/
structure ScanOutcome (E : Type) where
  result : Except E (List CellAccessibilityIssue)
  warnings : List Nat
  scratch : List ScratchEvent

/-- The `for` loop of `analyzeCellsAccessibility`, from index `i`: returns the
issues collected (or the first oracle error, which aborts the loop) and the
warned indices. -/
def analyzeLoop (E : Type) (axeRun : AxeRun E) :
    Nat → List (Option NotebookCell) → Except E (List CellAccessibilityIssue) × List Nat
  | _, [] => (.ok [], [])
  | i, c :: rest =>
    match c with
    | none =>
      let r := analyzeLoop E axeRun (i + 1) rest
      (r.1, i :: r.2)
    | some cell =>
      match cell.model with
      | none =>
        let r := analyzeLoop E axeRun (i + 1) rest
        (r.1, i :: r.2)
      | some m =>
        match cellOutput m.type cell with
        | none => analyzeLoop E axeRun (i + 1) rest
        | some out =>
          if jsTrim out == "" then analyzeLoop E axeRun (i + 1) rest
          else
            match axeRun out axeConfig with
            | .error e => (.error e, [])
            | .ok violations =>
              let r := analyzeLoop E axeRun (i + 1) rest
              if violations.isEmpty then r
              else
                (r.1.map (fun issues =>
                  { cellIndex := i, cellType := m.type, axeResults := violations
                    contentRaw := m.source } :: issues), r.2)

/-- `analyzeCellsAccessibility`: `tempDiv` is created and appended before the
`try`, the loop runs inside it, and `finally \x7b tempDiv.remove() \x7d` runs on the
normal and the exceptional exit alike. -/
def analyzeCellsAccessibility (E : Type) (axeRun : AxeRun E)
    (cells : List (Option NotebookCell)) : ScanOutcome E :=
  let created := [ScratchEvent.create]
  let r := analyzeLoop E axeRun 0 cells
  { result := r.1, warnings := r.2, scratch := created ++ [ScratchEvent.remove] }

/-! ## Prompt formatter (`formatPrompt`, lines 71–82) -/

/-- `formatPrompt`: the deterministic prompt template. -/
def formatPrompt (issue : CellAccessibilityIssue) : String :=
  let header := "The following represents a jupyter notebook cell and a accessibility issue found in it.\n\n"
  let content := "Content: \n" ++ issue.contentRaw ++ "\n\n"
  let blocks := issue.axeResults.foldl
    (fun acc v => acc ++ "Issue: " ++ v.id ++ "\n\n" ++ "Description: " ++ v.description ++ "\n\n") ""
  header ++ content ++ blocks

/-! ## Applying a suggestion (`CellIssueWidget.applySuggestion`, lines 241–269) -/

/-- The widget state `applySuggestion` reads: `this.currentNotebook` (its
cell list), `this.cellIndex`, `this.suggestion`. -/
structure WidgetState where
  currentNotebook : Option (List (Option NotebookCell))
  cellIndex : Nat
  suggestion : String
deriving DecidableEq

/-- What one `applySuggestion` call does: the notebook cells afterwards, the
widget's removal/disposal, the suggestion afterwards, every oracle invocation
(container HTML and options), and a propagated oracle error, if any. -/
structure ApplyOutcome (E : Type) where
  cells : Option (List (Option NotebookCell))
  removedFromDom : Bool
  disposed : Bool
  suggestionAfter : String
  oracleCalls : List (String × AxeRunOptions)
  err : Option E

/-- The no-effect outcome of the early returns. -/
def applyNoop (E : Type) (st : WidgetState) : ApplyOutcome E :=
  { cells := st.currentNotebook, removedFromDom := false, disposed := false
    suggestionAfter := st.suggestion, oracleCalls := [], err := none }

/-- `applySuggestion`: guard `!this.currentNotebook || !this.suggestion`,
guard `cell && cell.model`, then `setSource(this.suggestion)` followed by one
`axe.run` on `cell.node.innerHTML` and conditional removal/disposal. -/
def applySuggestion (E : Type) (axeRun : AxeRun E) (st : WidgetState) : ApplyOutcome E :=
  match st.currentNotebook with
  | none => applyNoop E st
  | some cells =>
    if st.suggestion == "" then applyNoop E st
    else
      match cells.get? st.cellIndex with
      | none => applyNoop E st
      | some none => applyNoop E st
      | some (some cell) =>
        match cell.model with
        | none => applyNoop E st
        | some m =>
          let cell' : NotebookCell := { cell with model := some { m with source := st.suggestion } }
          let cells' := cells.set st.cellIndex (some cell')
          match axeRun cell.nodeInnerHTML applyAxeOptions with
          | .error e =>
            { cells := some cells', removedFromDom := false, disposed := false
              suggestionAfter := st.suggestion
              oracleCalls := [(cell.nodeInnerHTML, applyAxeOptions)], err := some e }
          | .ok violations =>
            if violations.isEmpty then
              { cells := some cells', removedFromDom := true, disposed := true
                suggestionAfter := st.suggestion
                oracleCalls := [(cell.nodeInnerHTML, applyAxeOptions)], err := none }
            else
              { cells := some cells', removedFromDom := false, disposed := false
                suggestionAfter := st.suggestion
                oracleCalls := [(cell.nodeInnerHTML, applyAxeOptions)], err := none }

/-! ## Concrete fixtures used by witnesses and counterexamples -/

/-- An oracle that reports no violation, whatever the container. -/
def okAxe : AxeRun Unit := fun _ _ => .ok []

/-- One concrete violation record. -/
def colorContrast : Violation :=
  { id := "color-contrast", impact := "serious"
    description := "Elements must have sufficient color contrast"
    help := "Elements must meet minimum color contrast ratio thresholds"
    helpUrl := "https://dequeuniversity.com/rules/axe/4.4/color-contrast" }

/-- An oracle that reports exactly `colorContrast`, whatever the container. -/
def oneViolationAxe : AxeRun Unit := fun _ _ => .ok [colorContrast]

/-- A markdown cell with a rendered `.jp-MarkdownOutput`. -/
def mdModel : CellModel := { type := "markdown", source := "# title" }

def mdCell : NotebookCell :=
  { model := some mdModel, markdownOutput := some "<h1>title</h1>", outputArea := none
    nodeInnerHTML := "<h1>title</h1>" }

/-- A cell of the unrecognized type `'raw'`, with a valid model and rendered
content under both selectors. -/
def rawModel : CellModel := { type := "raw", source := "raw text" }

def rawCell : NotebookCell :=
  { model := some rawModel, markdownOutput := some "<p>x</p>", outputArea := some "<p>y</p>"
    nodeInnerHTML := "<p>x</p>" }

/-- A widget over a one-cell notebook holding the suggestion `"fixed"`. -/
def c4State : WidgetState :=
  { currentNotebook := some [some mdCell], cellIndex := 0, suggestion := "fixed" }

/-- A widget whose notebook reference is gone. -/
def c10State : WidgetState :=
  { currentNotebook := none, cellIndex := 0, suggestion := "fixed" }

/-- The widget state after a backend failure: `this.suggestion` holds the
placeholder that `getFixSuggestions` put in the suggestion slot. -/
def c2State : WidgetState :=
  { currentNotebook := some [some mdCell], cellIndex := 0
    suggestion := "Error analyzing accessibility issues" }

/-- The exact scenario body of the spec: the `response` field wraps the inner
JSON in a ```` ```json ```` fence. -/
def c8Body : String :=
  "\x7b\"response\":\"```json\\n\x7b\\\"exampleCellContent\\\":\\\"alt text here\\\",\\\"explanation\\\":\\\"added alt\\\"\x7d\\n```\"\x7d"

/-- A parseable success body whose inner payload maps `exampleCellContent` to
the (truthy, non-string) JSON value `true`. -/
def c3Body : String :=
  "\x7b\"response\":\"\x7b\\\"exampleCellContent\\\":true\x7d\"\x7d"

/-! ## Theorems -/

/-- C1 counterexample: on the HTTP 500 response the returned pair is
`['Error analyzing accessibility issues', '']` — the replacement-text slot is
NOT the empty string and the explanation IS empty, the reverse of the claim. -/
theorem http500_suggestion_fields_cex :
    (getFixSuggestions (.gotResponse 500 "")).1 ≠ JSVal.jstr "" ∧
    (getFixSuggestions (.gotResponse 500 "")).2 = JSVal.jstr "" := by
  refine ⟨fun h => ?_, rfl⟩
  have h' : JSVal.jstr "Error analyzing accessibility issues" = JSVal.jstr "" := h
  exact absurd (JSVal.jstr.inj h') (by decide)

/-- C1 (amended): for every transport response with a non-success status, the
returned pair is `('Error analyzing accessibility issues', '')` — a non-empty
placeholder in the replacement-text slot and an empty explanation. -/
theorem transportFailure_placeholder_fields (status : Nat) (body : String)
    (h : respOk status = false) :
    getFixSuggestions (.gotResponse status body)
      = (JSVal.jstr "Error analyzing accessibility issues", JSVal.jstr "") := by
  simp [getFixSuggestions, h]

/-- C1 witness: the amended statement at the concrete 500 response. -/
theorem transportFailure_placeholder_fields_witness :
    getFixSuggestions (.gotResponse 500 "")
      = (JSVal.jstr "Error analyzing accessibility issues", JSVal.jstr "") :=
  transportFailure_placeholder_fields 500 "" (by decide)

/-- C2 (code bug): after a backend failure the widget stores the non-empty
placeholder `'Error analyzing accessibility issues'`, and a subsequent
`applySuggestion` overwrites the cell's source with that placeholder instead
of being a no-op. -/
theorem applyAfterBackendFailure_overwrites_cell :
    (getFixSuggestions (.gotResponse 500 "")).1
      = JSVal.jstr "Error analyzing accessibility issues" ∧
    c2State.suggestion = "Error analyzing accessibility issues" ∧
    ¬ c2State.suggestion = "" ∧
    (applySuggestion Unit okAxe c2State).cells
      = some [some { mdCell with
          model := some { type := "markdown"
                          source := "Error analyzing accessibility issues" } }] ∧
    ¬ (applySuggestion Unit okAxe c2State).cells = some [some mdCell] := by
  refine ⟨rfl, rfl, by decide, rfl, by decide⟩

/-- C3 (code bug): on a parseable body whose inner payload carries a truthy
non-string field, `getFixSuggestions` resolves to a pair whose first component
is the boolean `true`, not a string — contradicting the declared return type
`Promise<string[]>` and the claim. -/
theorem getFixSuggestions_nonstring_field :
    getFixSuggestions (.gotResponse 200 c3Body) = (JSVal.jbool true, JSVal.jstr "") ∧
    jsIsString (getFixSuggestions (.gotResponse 200 c3Body)).1 = false :=
  ⟨rfl, rfl⟩

/-- C8: on the spec's fenced scenario body, `getFixSuggestions` strips the
fence, parses the inner JSON and returns
`('alt text here', 'added alt')`. -/
theorem getFixSuggestions_fenced_payload :
    getFixSuggestions (.gotResponse 200 c8Body)
      = (JSVal.jstr "alt text here", JSVal.jstr "added alt") := rfl

/-- C9: for every oracle (failing ones included) and every cell list, the scan
creates exactly one scratch container and removes it as its last action. -/
theorem scan_scratch_created_once_removed_always (E : Type) (axeRun : AxeRun E)
    (cells : List (Option NotebookCell)) :
    (analyzeCellsAccessibility E axeRun cells).scratch
      = [ScratchEvent.create, ScratchEvent.remove] ∧
    (analyzeCellsAccessibility E axeRun cells).scratch.count ScratchEvent.create = 1 ∧
    (analyzeCellsAccessibility E axeRun cells).scratch.count ScratchEvent.remove = 1 ∧
    (analyzeCellsAccessibility E axeRun cells).scratch.getLast? = some ScratchEvent.remove := by
  refine ⟨rfl, ?_, ?_, rfl⟩ <;> simp [analyzeCellsAccessibility, List.count_cons]

/-- C4: when the preconditions hold — notebook reachable, stored suggestion
non-empty, the indexed cell present with a model — `applySuggestion` sets that
cell's source to exactly the stored suggestion and invokes the oracle exactly
once, on that cell's rendered node, with options equal to the scan's
configuration. -/
theorem applySuggestion_sets_source_and_revalidates_once
    (E : Type) (axeRun : AxeRun E) (st : WidgetState)
    (cells : List (Option NotebookCell)) (cell : NotebookCell) (m : CellModel)
    (hnb : st.currentNotebook = some cells)
    (hsug : ¬ st.suggestion = "")
    (hcell : cells[st.cellIndex]? = some (some cell))
    (hm : cell.model = some m) :
    (applySuggestion E axeRun st).cells
      = some (cells.set st.cellIndex
          (some { cell with model := some { m with source := st.suggestion } })) ∧
    (applySuggestion E axeRun st).oracleCalls = [(cell.nodeInnerHTML, applyAxeOptions)] ∧
    applyAxeOptions = axeConfig := by
  have hbeq : (st.suggestion == "") = false := by
    simpa using hsug
  rcases haxe : axeRun cell.nodeInnerHTML applyAxeOptions with e | violations
  all_goals
    simp only [applySuggestion, hnb, hbeq, Bool.false_eq_true, if_false, List.get?_eq_getElem?,
      hcell, hm, haxe]
  · simp [applyAxeOptions, axeConfig]
  · cases hv : violations.isEmpty <;> simp [hv, applyAxeOptions, axeConfig]

/-- C4 witness: the theorem at a concrete one-cell notebook with suggestion
`"fixed"` and a violation-free oracle. -/
theorem applySuggestion_sets_source_witness :
    (applySuggestion Unit okAxe c4State).cells
      = some ([some mdCell].set 0
          (some { mdCell with model := some { mdModel with source := "fixed" } })) ∧
    (applySuggestion Unit okAxe c4State).oracleCalls
      = [(mdCell.nodeInnerHTML, applyAxeOptions)] ∧
    applyAxeOptions = axeConfig :=
  applySuggestion_sets_source_and_revalidates_once Unit okAxe c4State [some mdCell] mdCell
    mdModel rfl (by decide) rfl rfl

/-- C5: under the same preconditions, when the re-validation resolves with
zero violations the widget is removed from the DOM and disposed; when
violations remain it stays, keeping its stored suggestion unchanged. -/
theorem applySuggestion_removal_matches_revalidation
    (E : Type) (axeRun : AxeRun E) (st : WidgetState)
    (cells : List (Option NotebookCell)) (cell : NotebookCell) (m : CellModel)
    (vs : List Violation)
    (hnb : st.currentNotebook = some cells)
    (hsug : ¬ st.suggestion = "")
    (hcell : cells[st.cellIndex]? = some (some cell))
    (hm : cell.model = some m)
    (haxe : axeRun cell.nodeInnerHTML applyAxeOptions = .ok vs) :
    (vs = [] →
      (applySuggestion E axeRun st).removedFromDom = true ∧
      (applySuggestion E axeRun st).disposed = true) ∧
    (¬ vs = [] →
      (applySuggestion E axeRun st).removedFromDom = false ∧
      (applySuggestion E axeRun st).disposed = false ∧
      (applySuggestion E axeRun st).suggestionAfter = st.suggestion) := by
  have hbeq : (st.suggestion == "") = false := by
    simpa using hsug
  simp only [applySuggestion, hnb, hbeq, Bool.false_eq_true, if_false, List.get?_eq_getElem?,
    hcell, hm, haxe]
  rcases vs with _ | ⟨v, vs'⟩ <;> simp

/-- C5 witness: with the violation-free oracle the widget is removed and
disposed. -/
theorem applySuggestion_removal_witness :
    (applySuggestion Unit okAxe c4State).removedFromDom = true ∧
    (applySuggestion Unit okAxe c4State).disposed = true :=
  (applySuggestion_removal_matches_revalidation Unit okAxe c4State [some mdCell] mdCell
    mdModel [] rfl (by decide) rfl rfl rfl).1 rfl

/-- C10: when the notebook reference is `null`, or the stored suggestion is
the empty string, or the indexed cell does not resolve to a cell with a model,
`applySuggestion` leaves the notebook untouched, performs no oracle call and
propagates no error. -/
theorem applySuggestion_noop_on_failed_preconditions
    (E : Type) (axeRun : AxeRun E) (st : WidgetState)
    (h : st.currentNotebook = none ∨ st.suggestion = "" ∨
      ∀ cells, st.currentNotebook = some cells →
        ∀ cell, cells[st.cellIndex]? = some (some cell) → cell.model = none) :
    (applySuggestion E axeRun st).cells = st.currentNotebook ∧
    (applySuggestion E axeRun st).oracleCalls = [] ∧
    (applySuggestion E axeRun st).err = none := by
  rcases hnb : st.currentNotebook with _ | cells
  · simp [applySuggestion, hnb, applyNoop]
  · rcases h with h | h | h
    · exact absurd (hnb ▸ h) (by simp)
    · have hbeq : (st.suggestion == "") = true := by simpa using h
      simp [applySuggestion, hnb, hbeq, applyNoop]
    · rcases hsb : (st.suggestion == "") with _ | _
      · rcases hcell : cells[st.cellIndex]? with _ | ⟨_ | cell⟩
        · simp [applySuggestion, hnb, hsb, hcell, applyNoop]
        · simp [applySuggestion, hnb, hsb, hcell, applyNoop]
        · have hm : cell.model = none := h cells hnb cell hcell
          simp [applySuggestion, hnb, hsb, hcell, hm, applyNoop]
      · simp [applySuggestion, hnb, hsb, applyNoop]

/-- C10 witness: the theorem at a widget whose notebook reference is gone. -/
theorem applySuggestion_noop_witness :
    (applySuggestion Unit okAxe c10State).cells = c10State.currentNotebook ∧
    (applySuggestion Unit okAxe c10State).oracleCalls = [] ∧
    (applySuggestion Unit okAxe c10State).err = none :=
  applySuggestion_noop_on_failed_preconditions Unit okAxe c10State (Or.inl rfl)

/-- Every issue the scan loop collects from index `i` onwards comes from a
cell with a model whose chosen rendered output is present and non-empty after
trimming. -/
theorem analyzeLoop_issues (E : Type) (axeRun : AxeRun E) :
    ∀ (cells : List (Option NotebookCell)) (i : Nat) (issues : List CellAccessibilityIssue),
      (analyzeLoop E axeRun i cells).1 = .ok issues →
      ∀ iss ∈ issues, ∃ j cell m out,
        iss.cellIndex = i + j ∧
        cells[j]? = some (some cell) ∧
        cell.model = some m ∧
        iss.cellType = m.type ∧
        cellOutput m.type cell = some out ∧
        ¬ jsTrim out = "" := by
  intro cells
  induction cells with
  | nil =>
    intro i issues h iss hmem
    simp only [analyzeLoop] at h
    cases h
    simp at hmem
  | cons c rest ih =>
    intro i issues h iss hmem
    rcases c with _ | cell
    · simp only [analyzeLoop] at h
      obtain ⟨j, cell', m', out', h1, h2, h3, h4, h5, h6⟩ := ih (i + 1) issues h iss hmem
      exact ⟨j + 1, cell', m', out', by omega, by simpa using h2, h3, h4, h5, h6⟩
    · rcases hmod : cell.model with _ | m
      · simp only [analyzeLoop, hmod] at h
        obtain ⟨j, cell', m', out', h1, h2, h3, h4, h5, h6⟩ := ih (i + 1) issues h iss hmem
        exact ⟨j + 1, cell', m', out', by omega, by simpa using h2, h3, h4, h5, h6⟩
      · rcases hout : cellOutput m.type cell with _ | out
        · simp only [analyzeLoop, hmod, hout] at h
          obtain ⟨j, cell', m', out', h1, h2, h3, h4, h5, h6⟩ := ih (i + 1) issues h iss hmem
          exact ⟨j + 1, cell', m', out', by omega, by simpa using h2, h3, h4, h5, h6⟩
        · rcases htrim : (jsTrim out == "") with _ | _
          · rcases haxe : axeRun out axeConfig with e | violations
            · simp only [analyzeLoop, hmod, hout, htrim, haxe, Bool.false_eq_true, if_false] at h
              cases h
            · rcases hv : violations.isEmpty with _ | _
              · rcases hrest : (analyzeLoop E axeRun (i + 1) rest).1 with e' | tailIssues
                · simp only [analyzeLoop, hmod, hout, htrim, haxe, hv, hrest,
                    Bool.false_eq_true, if_false, Except.map] at h
                  cases h
                · simp only [analyzeLoop, hmod, hout, htrim, haxe, hv, hrest,
                    Bool.false_eq_true, if_false, Except.map] at h
                  cases h
                  rcases List.mem_cons.mp hmem with hhead | htail
                  · subst hhead
                    refine ⟨0, cell, m, out, by simp, by simp, hmod, rfl, hout, ?_⟩
                    simpa using htrim
                  · obtain ⟨j, cell', m', out', h1, h2, h3, h4, h5, h6⟩ :=
                      ih (i + 1) tailIssues hrest iss htail
                    exact ⟨j + 1, cell', m', out', by omega, by simpa using h2, h3, h4, h5, h6⟩
              · simp only [analyzeLoop, hmod, hout, htrim, haxe, hv,
                  Bool.false_eq_true, if_false, if_true] at h
                obtain ⟨j, cell', m', out', h1, h2, h3, h4, h5, h6⟩ := ih (i + 1) issues h iss hmem
                exact ⟨j + 1, cell', m', out', by omega, by simpa using h2, h3, h4, h5, h6⟩
          · simp only [analyzeLoop, hmod, hout, htrim, if_true] at h
            obtain ⟨j, cell', m', out', h1, h2, h3, h4, h5, h6⟩ := ih (i + 1) issues h iss hmem
            exact ⟨j + 1, cell', m', out', by omega, by simpa using h2, h3, h4, h5, h6⟩

/-- Every index the scan loop warns about, from index `i` onwards, belongs to
a missing cell or a cell without a model. -/
theorem analyzeLoop_warnings (E : Type) (axeRun : AxeRun E) :
    ∀ (cells : List (Option NotebookCell)) (i j : Nat),
      j ∈ (analyzeLoop E axeRun i cells).2 →
      ∃ k, j = i + k ∧
        (cells[k]? = some none ∨
          ∃ cell, cells[k]? = some (some cell) ∧ cell.model = none) := by
  intro cells
  induction cells with
  | nil =>
    intro i j h
    simp [analyzeLoop] at h
  | cons c rest ih =>
    intro i j h
    rcases c with _ | cell
    · simp only [analyzeLoop, List.mem_cons] at h
      rcases h with rfl | htail
      · exact ⟨0, by omega, Or.inl (by simp)⟩
      · obtain ⟨k, hk, hcase⟩ := ih (i + 1) j htail
        refine ⟨k + 1, by omega, ?_⟩
        simpa using hcase
    · rcases hmod : cell.model with _ | m
      · simp only [analyzeLoop, hmod, List.mem_cons] at h
        rcases h with rfl | htail
        · exact ⟨0, by omega, Or.inr ⟨cell, by simp, hmod⟩⟩
        · obtain ⟨k, hk, hcase⟩ := ih (i + 1) j htail
          refine ⟨k + 1, by omega, ?_⟩
          simpa using hcase
      · rcases hout : cellOutput m.type cell with _ | out
        · simp only [analyzeLoop, hmod, hout] at h
          obtain ⟨k, hk, hcase⟩ := ih (i + 1) j h
          refine ⟨k + 1, by omega, ?_⟩
          simpa using hcase
        · rcases htrim : (jsTrim out == "") with _ | _
          · rcases haxe : axeRun out axeConfig with e | violations
            · simp only [analyzeLoop, hmod, hout, htrim, haxe,
                Bool.false_eq_true, if_false] at h
              simp at h
            · rcases hv : violations.isEmpty with _ | _ <;>
                · simp only [analyzeLoop, hmod, hout, htrim, haxe, hv,
                    Bool.false_eq_true, if_false, if_true] at h
                  obtain ⟨k, hk, hcase⟩ := ih (i + 1) j h
                  refine ⟨k + 1, by omega, ?_⟩
                  simpa using hcase
          · simp only [analyzeLoop, hmod, hout, htrim, if_true] at h
            obtain ⟨k, hk, hcase⟩ := ih (i + 1) j h
            refine ⟨k + 1, by omega, ?_⟩
            simpa using hcase

/-- C6: every issue a scan returns corresponds to a cell whose chosen
rendered-output container exists and whose content is non-empty after
trimming; cells with empty or absent output never yield an issue. -/
theorem scan_issues_have_nonempty_output (E : Type) (axeRun : AxeRun E)
    (cells : List (Option NotebookCell)) (issues : List CellAccessibilityIssue)
    (h : (analyzeCellsAccessibility E axeRun cells).result = .ok issues)
    (iss : CellAccessibilityIssue) (hmem : iss ∈ issues) :
    ∃ cell m out,
      cells[iss.cellIndex]? = some (some cell) ∧
      cell.model = some m ∧
      cellOutput m.type cell = some out ∧
      ¬ jsTrim out = "" := by
  have h' : (analyzeLoop E axeRun 0 cells).1 = .ok issues := h
  obtain ⟨j, cell, m, out, h1, h2, h3, _, h5, h6⟩ :=
    analyzeLoop_issues E axeRun cells 0 issues h' iss hmem
  rw [h1, Nat.zero_add]
  exact ⟨cell, m, out, h2, h3, h5, h6⟩

/-- The one issue the C6 witness scan returns. -/
def scanIssue0 : CellAccessibilityIssue :=
  { cellIndex := 0, cellType := "markdown", axeResults := [colorContrast]
    contentRaw := "# title" }

/-- C6 witness: the theorem at a one-cell notebook whose markdown output is
non-empty and whose oracle reports one violation. -/
theorem scan_issue_nonempty_output_witness :
    ∃ cell m out,
      (([some mdCell] : List (Option NotebookCell)))[scanIssue0.cellIndex]? = some (some cell) ∧
      cell.model = some m ∧
      cellOutput m.type cell = some out ∧
      ¬ jsTrim out = "" :=
  scan_issues_have_nonempty_output Unit oneViolationAxe [some mdCell] [scanIssue0]
    rfl scanIssue0 (by simp)

/-- C7 counterexample: scanning a notebook whose one cell has a valid model of
the unrecognized type `'raw'` logs no warning at all — the claim's logged
warning does not happen — while producing no error and no issue. -/
theorem scan_unrecognized_type_no_warning_cex :
    (analyzeCellsAccessibility Unit okAxe [some rawCell]).warnings = [] ∧
    (analyzeCellsAccessibility Unit okAxe [some rawCell]).result = .ok [] :=
  ⟨rfl, rfl⟩

/-- C7 (amended): a unit with a model and an unrecognized type discriminator
is skipped silently — the scan logs no warning for its index (warnings are
logged only for missing cells or models), raises no error for it, and emits
no issue for it. -/
theorem scan_unrecognized_type_silent_skip (E : Type) (axeRun : AxeRun E)
    (cells : List (Option NotebookCell)) (i : Nat) (cell : NotebookCell) (m : CellModel)
    (hc : cells[i]? = some (some cell)) (hm : cell.model = some m)
    (h1 : ¬ m.type = "markdown") (h2 : ¬ m.type = "code") :
    i ∉ (analyzeCellsAccessibility E axeRun cells).warnings ∧
    ∀ issues, (analyzeCellsAccessibility E axeRun cells).result = .ok issues →
      ∀ iss ∈ issues, ¬ iss.cellIndex = i := by
  constructor
  · intro hw
    obtain ⟨k, hk, hcase⟩ := analyzeLoop_warnings E axeRun cells 0 i hw
    have hk' : k = i := by omega
    subst hk'
    rcases hcase with hnone | ⟨cell', hc', hm'⟩
    · rw [hc] at hnone
      simp at hnone
    · rw [hc] at hc'
      have : cell = cell' := by simpa using hc'
      subst this
      rw [hm] at hm'
      cases hm'
  · intro issues hres iss hmem hidx
    have hres' : (analyzeLoop E axeRun 0 cells).1 = .ok issues := hres
    obtain ⟨j, cell', m', out, hj1, hj2, hj3, _, hj5, _⟩ :=
      analyzeLoop_issues E axeRun cells 0 issues hres' iss hmem
    have hj : j = i := by omega
    subst hj
    rw [hc] at hj2
    have : cell = cell' := by simpa using hj2
    subst this
    rw [hm] at hj3
    have hmm : m = m' := by simpa using hj3
    subst hmm
    rw [cellOutput, if_neg (by simpa using h1), if_neg (by simpa using h2)] at hj5
    cases hj5

/-- C7 witness: the amended statement at the concrete `'raw'`-typed cell. -/
theorem scan_unrecognized_type_silent_witness :
    0 ∉ (analyzeCellsAccessibility Unit okAxe [some rawCell]).warnings ∧
    ∀ issues, (analyzeCellsAccessibility Unit okAxe [some rawCell]).result = .ok issues →
      ∀ iss ∈ issues, ¬ iss.cellIndex = 0 :=
  scan_unrecognized_type_silent_skip Unit okAxe [some rawCell] 0 rawCell rawModel rfl rfl
    (by decide) (by decide)

end A11yFix
